import Mathlib

/-!
Shallow embedding of the rslox bytecode VM, scanner and compiler
(`src/value.rs`, `src/vm.rs`, `src/scanner.rs`, `src/compiler/mod.rs`).

Modelling conventions:
* `Rc<RefCell<...>>` pointers are modelled as indices (`Nat`) into explicit
  heaps carried in `VMState` (`functions`, `closures`, `natives`,
  `upvalueCells`); two values with the same index model the same `Rc`
  allocation.
* `f64` numbers are modelled as `Int`; IEEE-754 artefacts (NaN, `-0.0`,
  float formatting) are outside the embedding.  None of the claims below
  depends on fractional values.
* A Rust `panic!` (index out of bounds, `usize` underflow, `unwrap` of
  `None`) is modelled as `Option.none`; a normal result is `some _`.
* The `globals` `HashMap` is modelled as an association list; the claims
  never exercise its lookup order.
* Host I/O (`println!`, `eprintln!`) has no state effect and is dropped.
-/

namespace RsLox

/-- `Value` from `value.rs`: the tagged runtime value.  Heap variants carry
the index of the allocation they point to. -/
inductive Value where
  | bool (b : Bool)
  | closure (id : Nat)
  | nil
  | number (n : Int)
  | string (s : String)
  | function (id : Nat)
  | native (id : Nat)
  | upvalue (id : Nat)
deriving DecidableEq, Repr

/-- `Upvalue` from `value.rs`: a capture cell, open (`closed = none`,
pointing at `stack[location]`) or closed (owning the value). -/
structure Upvalue where
  location : Nat
  closed : Option Value
deriving DecidableEq, Repr

/-- `Function` from `value.rs` (the chunk is not needed by the claims
settled here and is omitted from the record). -/
structure Function where
  arity : Nat
  name : String
  upvalue_count : Nat
deriving DecidableEq, Repr

/-- `Closure` from `value.rs`: function pointer plus captured cells. -/
structure Closure where
  functionId : Nat
  upvalues : List Nat
deriving DecidableEq, Repr

/-- `NativeFunction` from `value.rs` (the function pointer itself is passed
separately where needed). -/
structure NativeFunction where
  arity : Nat
  name : String
deriving DecidableEq, Repr

/-- `CallFrame` from `vm.rs`. -/
structure CallFrame where
  first_slot : Nat
  ip : Nat
  functionId : Nat
  closureId : Nat
deriving DecidableEq, Repr

/-- `VM` from `vm.rs`: the first four fields mirror the `VM` struct; the
remaining four are the heaps backing the `Rc` allocations. -/
structure VMState where
  frames : List CallFrame
  stack : List Value
  open_upvalues : List Nat
  globals : List (String × Value)
  functions : List Function
  closures : List Closure
  natives : List NativeFunction
  upvalueCells : List Upvalue
deriving DecidableEq, Repr

/-- `InterpretResult` from `vm.rs`. -/
inductive InterpretResult where
  | ok
  | compileError
  | runtimeError
deriving DecidableEq, Repr

namespace VM

/-- `VM::push`. -/
def push (s : VMState) (v : Value) : VMState :=
  { s with stack := s.stack ++ [v] }

/-- `VM::pop` drops the last slot (`Vec::pop`); `unwrap` on the empty stack
panics, which callers model by guarding on the length. -/
def popStack (s : VMState) : VMState :=
  { s with stack := s.stack.dropLast }

/-- `VM::peek(distance)`: `stack[stack.len() - 1 - distance]`.  Callers
guard the length, matching the `usize` underflow panic. -/
def peek (s : VMState) (distance : Nat) : Value :=
  s.stack.getD (s.stack.length - 1 - distance) Value.nil

/-- `VM::reset_stack`: clear the stack, the open-upvalue list and the
frame list. -/
def reset_stack (s : VMState) : VMState :=
  { s with stack := [], open_upvalues := [], frames := [] }

/-- `VM::runtime_error`: prints the message and a stack trace (host I/O,
no state effect) and then calls `reset_stack`. -/
def runtime_error (s : VMState) : VMState :=
  reset_stack s

/-- `VM::is_falsey` from `vm.rs` lines 408-416.  Note the `Number` and
`String` arms: `0` and the empty string are falsey in this code. -/
def is_falsey : Value → Bool
  | .nil => true
  | .bool b => !b
  | .number n => n == 0
  | .string s => s.length == 0
  | _ => false

/-- `impl Display for Value` from `value.rs`.  The `Nat` argument is
recursion fuel for the `Upvalue` arm, which recurses through the heap
(Rust would loop forever on a cyclic cell chain; the claims only evaluate
it on acyclic states, where the fuel is never exhausted). -/
def display (s : VMState) : Nat → Value → String
  | _, .bool b => if b then "true" else "false"
  | _, .nil => "nil"
  | _, .number n => toString n
  | _, .string str => str
  | _, .function fid =>
      match s.functions[fid]? with
      | some f => if f.name.length = 0 then "<script>" else "<fn " ++ f.name ++ ">"
      | none => "<dangling>"
  | _, .closure cid =>
      match s.closures[cid]? with
      | some c =>
          match s.functions[c.functionId]? with
          | some f => if f.name.length = 0 then "<script>" else "<fn " ++ f.name ++ ">"
          | none => "<dangling>"
      | none => "<dangling>"
  | _, .native nid =>
      match s.natives[nid]? with
      | some n => "<fn " ++ n.name ++ ">"
      | none => "<dangling>"
  | 0, .upvalue _ => "<dangling>"
  | fuel + 1, .upvalue uid =>
      match s.upvalueCells[uid]? with
      | some cell =>
          match cell.closed with
          | some v => display s fuel v
          | none => "<closed>"
      | none => "<dangling>"

end VM

/-- `impl PartialEq for Value` from `value.rs` lines 106-116: the wildcard
arm makes every comparison involving a `Closure`, `Function`, `Native` or
`Upvalue` false, even when both sides are the same allocation. -/
def valueEq : Value → Value → Bool
  | .bool a, .bool b => a == b
  | .nil, .nil => true
  | .number a, .number b => a == b
  | .string a, .string b => a == b
  | _, _ => false

namespace VM

/-- Result of one instruction: normal continuation or a runtime error
(whose state was already passed through `runtime_error`). -/
inductive StepOutcome where
  | ok (s : VMState)
  | err (s : VMState)
deriving DecidableEq, Repr

/-- The `Not` case of `VM::run` (lines 196-200): pop, apply `is_falsey`,
push the `Bool`.  `pop` on an empty stack panics (`unwrap`). -/
def not_step (s : VMState) : Option VMState :=
  if s.stack.length = 0 then none
  else
    let value := peek s 0
    some (push (popStack s) (.bool (is_falsey value)))

/-- The `Add` case of `VM::run` (lines 159-169): if `peek(1)` is a
`String`, concatenate it with the `Display` rendering of `peek(0)`
(whatever its variant); otherwise fall into `bin_op!(+)`, which pushes the
numeric sum when both operands are `Number` and otherwise reports the
runtime error "Operands must be numbers".  The source's
`if let Value::String(a) = peek(1)` followed by the macro's
`(Number(b), Number(a)) = (peek(0), peek(1))` test is written as one
two-scrutinee match with the `String` arm first.  Peeking a stack of
fewer than two slots panics. -/
def add_step (s : VMState) : Option StepOutcome :=
  if s.stack.length < 2 then none
  else
    match peek s 1, peek s 0 with
    | .string sa, b =>
        some (.ok (push (popStack (popStack s))
          (.string (sa ++ display s (s.upvalueCells.length + 1) b))))
    | .number na, .number nb =>
        some (.ok (push (popStack (popStack s)) (.number (na + nb))))
    | _, _ => some (.err (runtime_error s))

/-- The `Equal` case of `VM::run` (lines 177-181): pop `b`, pop `a`, push
`Bool (a == b)` using `valueEq`. -/
def equal_step (s : VMState) : Option StepOutcome :=
  if s.stack.length < 2 then none
  else
    let b := peek s 0
    let a := peek s 1
    some (.ok (push (popStack (popStack s)) (.bool (valueEq a b))))

/-- The `GetUpvalue` case of `VM::run` (lines 283-295), operand `slot`
already decoded.  Note the branch structure of the source: when the cell
is closed (`closed.is_some()`) it pushes the raw `Value::Upvalue` wrapper;
the inner `if let Some(closed)` in the `else` branch can never fire (the
cell is open there) and the open path falls through to
`stack[cell.location]`. -/
def get_upvalue_step (s : VMState) (slot : Nat) : Option VMState := do
  let frame ← s.frames.getLast?
  let closure ← s.closures[frame.closureId]?
  let cellId ← closure.upvalues[slot]?
  let cell ← s.upvalueCells[cellId]?
  if cell.closed.isSome then
    pure (push s (.upvalue cellId))
  else
    match cell.closed with
    | some closed => pure (push s closed)
    | none => do
        let v ← s.stack[cell.location]?
        pure (push s v)

/-- The `SetUpvalue` case of `VM::run` (lines 296-305), operand `slot`
already decoded: read the cell's `location`, peek the value, then write
`cell.closed` if the cell is closed and `stack[location]` otherwise.
`peek(0)` on an empty stack and an out-of-range `stack[location]` both
panic. -/
def set_upvalue_step (s : VMState) (slot : Nat) : Option VMState := do
  let frame ← s.frames.getLast?
  let closure ← s.closures[frame.closureId]?
  let cellId ← closure.upvalues[slot]?
  let cell ← s.upvalueCells[cellId]?
  if s.stack.length = 0 then none
  else
    let value := peek s 0
    if cell.closed.isSome then
      pure { s with upvalueCells := s.upvalueCells.set cellId { cell with closed := some value } }
    else
      if cell.location < s.stack.length then
        pure { s with stack := s.stack.set cell.location value }
      else none

/-- `VM::call` from `vm.rs` lines 393-406: reject only an arity mismatch
(runtime error), otherwise push a `CallFrame` with
`first_slot = stack.len() - arg_count - 1` and `ip = 0`.  There is no
check of the number of live frames.  The `usize` subtraction panics when
the stack holds fewer than `arg_count + 1` slots. -/
def call (s : VMState) (closureId : Nat) (arg_count : Nat) : Option (Bool × VMState) := do
  let closure ← s.closures[closureId]?
  let fn ← s.functions[closure.functionId]?
  if arg_count ≠ fn.arity then
    pure (false, runtime_error s)
  else
    if arg_count + 1 ≤ s.stack.length then
      pure (true, { s with
        frames := s.frames ++ [⟨s.stack.length - arg_count - 1, 0, closure.functionId, closureId⟩] })
    else none

/-- The `Value::Native` arm of `VM::call_value` (lines 362-376): run the
host function on the slice `stack[len - argc ..]`, truncate the stack to
`len - argc - 1`, then either report the error message as a runtime error
or push the result.  The host function returns `none` when it panics, and
the panic propagates. -/
def call_value_native (s : VMState) (arg_count : Nat)
    (f : List Value → Option (Except String Value)) : Option (Bool × VMState) := do
  if arg_count ≤ s.stack.length then
    let res ← f (s.stack.drop (s.stack.length - arg_count))
    if arg_count + 1 ≤ s.stack.length then
      let s1 : VMState := { s with stack := s.stack.take (s.stack.length - arg_count - 1) }
      match res with
      | .error _ => pure (false, runtime_error s1)
      | .ok v => pure (true, push s1 v)
    else none
  else none

end VM

/-- `sqrt` from `native/sqrt.rs`: indexes `values[0]` without checking the
argument count, so an empty argument slice is an out-of-bounds panic
(`none`).  The numeric result of `f64::sqrt` lies outside this embedding
(floating point); only the panic/`Ok`/`Err` structure is modelled, so the
`Number` arm returns the argument's payload unchanged.  The `VMState`
argument only supplies the heaps behind the `Rc` pointers for the
`Display` rendering in the error message. -/
def sqrt (s : VMState) (values : List Value) : Option (Except String Value) :=
  match values[0]? with
  | none => none
  | some (Value.number n) => some (.ok (.number n))
  | some v => some (.error (VM.display s (s.upvalueCells.length + 1) v ++ " is not a number"))

/-- `VM::interpret` from `vm.rs` lines 45-58.  The compiler's outcome is
passed in as `compile_result` (the `Parser` is a separate component); the
interpreter loop `run` is likewise a parameter, applied to the state after
the root call has been pushed.  On `None` the function returns
`CompileError` before touching any VM state. -/
def interpret (compile_result : Option Function) (s : VMState)
    (run : VMState → InterpretResult × VMState) : Option (InterpretResult × VMState) :=
  match compile_result with
  | none => some (.compileError, s)
  | some fn =>
      let fid := s.functions.length
      let s1 : VMState := { s with functions := s.functions ++ [fn] }
      let s2 := VM.push s1 (.function fid)
      let cid := s2.closures.length
      let s3 : VMState := { s2 with closures := s2.closures ++ [⟨fid, []⟩] }
      let s4 := VM.popStack s3
      let s5 := VM.push s4 (.closure cid)
      match VM.call s5 cid 0 with
      | none => none
      | some (_, s6) => some (run s6)

/-- `TokenType` from `scanner.rs` (including the source's `Idenitifier`
spelling). -/
inductive TokenType where
  | LeftParen
  | RightParen
  | LeftBrace
  | RightBrace
  | Comma
  | Dot
  | Minus
  | Plus
  | Semicolon
  | Slash
  | Star
  | Bang
  | BangEqual
  | Equal
  | EqualEqual
  | Greater
  | GreaterEqual
  | Less
  | LessEqual
  | Idenitifier
  | String
  | Number
  | And
  | Class
  | Else
  | False
  | For
  | Fun
  | If
  | Nil
  | Or
  | Print
  | Return
  | Super
  | This
  | True
  | Var
  | While
  | Error
  | EOF
deriving DecidableEq, Repr

/-- `Scanner` from `scanner.rs` (the `line` counter is irrelevant to the
claims).  The source is ASCII (per the language), so the byte-level
indexing and slicing of the Rust code coincide with `List Char`
positions. -/
structure Scanner where
  source : List Char
  start : Nat
  current : Nat
deriving DecidableEq, Repr

namespace Scanner

/-- `Scanner::check_keyword` from `scanner.rs` lines 244-258.  The slice
taken is `source[start + start_off .. current + len]` exactly as in the
source (its upper bound is `self.current + len`, not
`self.start + start_off + len`); slicing past the end of the source, a
backwards range, or a `usize` underflow of `current - start` panics. -/
def check_keyword (sc : Scanner) (start_off len : Nat) (rest : List Char)
    (token_type : TokenType) : Option TokenType :=
  if sc.start ≤ sc.current then
    if sc.current - sc.start = start_off + len then
      if sc.start + start_off ≤ sc.current + len ∧ sc.current + len ≤ sc.source.length then
        if (sc.source.drop (sc.start + start_off)).take (sc.current + len - (sc.start + start_off)) = rest then
          some token_type
        else
          some TokenType.Idenitifier
      else none
    else some TokenType.Idenitifier
  else none

/-- `Scanner::identifier_type` from `scanner.rs` lines 203-242: dispatch
on the first character (and second, for `f`/`t`) of the lexeme
`source[start..current]`, then defer to `check_keyword`.  Indexing
`source[start]` out of range panics. -/
def identifier_type (sc : Scanner) : Option TokenType := do
  let c ← sc.source[sc.start]?
  match c with
  | 'a' => check_keyword sc 1 2 ['n', 'd'] TokenType.And
  | 'c' => check_keyword sc 1 4 ['l', 'a', 's', 's'] TokenType.Class
  | 'e' => check_keyword sc 1 3 ['l', 's', 'e'] TokenType.Else
  | 'f' =>
      if sc.start + 1 < sc.current then
        match sc.source[sc.start + 1]? with
        | some 'a' => check_keyword sc 2 3 ['l', 's', 'e'] TokenType.False
        | some 'o' => check_keyword sc 2 1 ['r'] TokenType.For
        | some 'u' => check_keyword sc 2 1 ['n'] TokenType.Fun
        | some _ => some TokenType.Idenitifier
        | none => none
      else some TokenType.Idenitifier
  | 'i' => check_keyword sc 1 1 ['f'] TokenType.If
  | 'n' => check_keyword sc 1 2 ['i', 'l'] TokenType.Nil
  | 'o' => check_keyword sc 1 1 ['r'] TokenType.Or
  | 'p' => check_keyword sc 1 4 ['r', 'i', 'n', 't'] TokenType.Print
  | 'r' => check_keyword sc 1 5 ['e', 't', 'u', 'r', 'n'] TokenType.Return
  | 's' => check_keyword sc 1 4 ['u', 'p', 'e', 'r'] TokenType.Super
  | 't' =>
      if sc.start + 1 < sc.current then
        match sc.source[sc.start + 1]? with
        | some 'h' => check_keyword sc 2 2 ['i', 's'] TokenType.This
        | some 'r' => check_keyword sc 2 2 ['u', 'e'] TokenType.True
        | some _ => some TokenType.Idenitifier
        | none => none
      else some TokenType.Idenitifier
  | 'v' => check_keyword sc 1 2 ['a', 'r'] TokenType.Var
  | 'w' => check_keyword sc 1 4 ['h', 'i', 'l', 'e'] TokenType.While
  | _ => some TokenType.Idenitifier

end Scanner

namespace Parser

/-- `Parser::patch_jump` from `compiler/mod.rs` lines 443-450, acting on
the chunk's byte list.  The returned `Bool` records whether
`self.error("Too much code to jump over.")` was called; the guard in the
source is `jump as u16 > u16::MAX`, i.e. the distance is truncated to 16
bits before the comparison.  The two placeholder bytes are overwritten
with the (possibly truncated) big-endian distance either way.  The
`usize` subtraction `code.len() - offset - 2` panics on underflow. -/
def patch_jump (code : List Nat) (offset : Nat) : Option (Bool × List Nat) :=
  if offset + 2 ≤ code.length then
    let jump := code.length - offset - 2
    let errored := decide (jump % 65536 > 65535)
    some (errored, (code.set offset ((jump >>> 8) % 256)).set (offset + 1) (jump % 256))
  else none

/-- `Parser::emit_loop` from `compiler/mod.rs` lines 409-417: append the
`Loop` opcode byte (its numeric encoding is passed in as `loop_byte`,
since the claims do not depend on the opcode numbering), compute
`offset = code.len() - loop_start + 2`, test `offset as u16 > u16::MAX`
(again truncated before the comparison; the `Bool` records whether
`self.error("Loop body too large")` was called) and append the two
(possibly truncated) big-endian offset bytes. -/
def emit_loop (loop_byte : Nat) (code : List Nat) (loop_start : Nat) : Option (Bool × List Nat) :=
  let code1 := code ++ [loop_byte]
  if loop_start ≤ code1.length then
    let offset := code1.length - loop_start + 2
    let errored := decide (offset % 65536 > 65535)
    some (errored, code1 ++ [(offset >>> 8) % 256, offset % 256])
  else none

end Parser

/-! Concrete states used to evaluate the definitions. -/

/-- A VM state whose current closure has one upvalue, cell 0, already
closed over the value `Number 1`. -/
def upvalueBugState : VMState :=
  { frames := [⟨0, 0, 0, 0⟩], stack := [Value.closure 0], open_upvalues := [],
    globals := [], functions := [⟨0, "f", 1⟩], closures := [⟨0, [0]⟩],
    natives := [], upvalueCells := [⟨0, some (Value.number 1)⟩] }

/-- A VM state with 64 live call frames (the `FRAMES_MAX` of the spec) and
a zero-arity closure value on the stack. -/
def framesFullState : VMState :=
  { frames := List.replicate 64 ⟨0, 0, 0, 0⟩, stack := [Value.closure 0],
    open_upvalues := [], globals := [], functions := [⟨0, "", 0⟩],
    closures := [⟨0, []⟩], natives := [], upvalueCells := [] }

/-- A VM state whose operand stack holds the `String` "a" under the
`Number` 1 (the configuration reached before executing `Add` for the
expression `"a" + 1`). -/
def addBugState : VMState :=
  { frames := [], stack := [Value.string "a", Value.number 1], open_upvalues := [],
    globals := [], functions := [], closures := [], natives := [], upvalueCells := [] }

/-- A VM state holding the `sqrt` native on the stack, about to be called
with zero arguments (the program `sqrt();`). -/
def sqrtCallState : VMState :=
  { frames := [], stack := [Value.native 0], open_upvalues := [],
    globals := [("sqrt", Value.native 0)], functions := [], closures := [],
    natives := [⟨1, "sqrt"⟩], upvalueCells := [] }

/-- Scanner state after consuming the identifier lexeme "and" out of the
source "and xy". -/
def andScanner : Scanner :=
  { source := ['a', 'n', 'd', ' ', 'x', 'y'], start := 0, current := 3 }

/-- Scanner state after consuming the identifier lexeme "and" when it is
the entire source. -/
def andScannerAtEnd : Scanner :=
  { source := ['a', 'n', 'd'], start := 0, current := 3 }

/-- A VM state whose operand stack holds two `Bool`s, on which `Add`
reports a runtime error. -/
def boolPairState : VMState :=
  { frames := [], stack := [Value.bool true, Value.bool true], open_upvalues := [],
    globals := [], functions := [], closures := [], natives := [], upvalueCells := [] }

/-- The state invariant asserted by the spec after a runtime error: empty
value stack, no call frames, no open upvalues. -/
def cleared (s : VMState) : Prop :=
  s.stack = [] ∧ s.frames = [] ∧ s.open_upvalues = []

/-! Theorems. -/

/-- C1 counterexample: the value `Number 0` is neither `Nil` nor
`Bool false`, yet `is_falsey` classifies it as falsey, and the `Not`
instruction run on it pushes `Bool true`. -/
theorem is_falsey_zero_counterexample :
    VM.is_falsey (Value.number 0) = true ∧
    VM.not_step ⟨[], [Value.number 0], [], [], [], [], [], []⟩ =
      some ⟨[], [Value.bool true], [], [], [], [], [], []⟩ ∧
    Value.number 0 ≠ Value.nil ∧ Value.number 0 ≠ Value.bool false := by
  decide

/-- C1 (amended): a value is falsey exactly when it is `Nil`,
`Bool false`, the number `0`, or a `String` of length zero; every other
value, including every non-zero number and non-empty string, is truthy. -/
theorem is_falsey_characterization (v : Value) :
    VM.is_falsey v = true ↔
      (v = Value.nil ∨ v = Value.bool false ∨ v = Value.number 0 ∨
        ∃ s, v = Value.string s ∧ s.length = 0) := by
  cases v <;> simp [VM.is_falsey]

/-- C6 counterexample: a `Closure` value compared with itself (the same
heap allocation on both sides) yields `false`, both in `PartialEq` and as
observed by the `Equal` instruction. -/
theorem closure_self_equality_counterexample :
    valueEq (Value.closure 0) (Value.closure 0) = false ∧
    VM.equal_step ⟨[], [Value.closure 0, Value.closure 0], [], [], [], [], [], []⟩ =
      some (.ok ⟨[], [Value.bool false], [], [], [], [], [], []⟩) := by
  decide

/-- C6 (amended): cross-variant comparisons are false and `Bool`,
`Number` and `String` compare structurally, but `Closure`, `Function`,
`Native` and `Upvalue` values always compare unequal — even a value
compared with itself. -/
theorem valueEq_characterization (a b : Value) :
    valueEq a b = true ↔
      ((∃ x, a = Value.bool x ∧ b = Value.bool x) ∨
       (a = Value.nil ∧ b = Value.nil) ∨
       (∃ n, a = Value.number n ∧ b = Value.number n) ∨
       (∃ s, a = Value.string s ∧ b = Value.string s)) := by
  cases a <;> cases b <;> simp [valueEq] <;> exact eq_comm

/-- C2: evaluating `GetUpvalue 0` on a state whose cell 0 is closed over
`Number 1` pushes the raw `Value::Upvalue` wrapper — a value distinct
from `Number 1` — while `SetUpvalue 0` on the same state does write
`cell.closed` as the claim states. -/
theorem get_upvalue_closed_pushes_wrapper :
    VM.get_upvalue_step upvalueBugState 0 =
      some { upvalueBugState with stack := [Value.closure 0, Value.upvalue 0] } ∧
    Value.upvalue 0 ≠ Value.number 1 ∧
    VM.set_upvalue_step upvalueBugState 0 =
      some { upvalueBugState with upvalueCells := [⟨0, some (Value.closure 0)⟩] } := by
  decide

/-- Helper for C3: whenever `rest` has the length the keyword table pairs
it with (always positive), `check_keyword` either panics or answers
`Idenitifier`: the slice it compares has length `2 * len`, so the match
can never succeed. -/
theorem check_keyword_never_matches (sc : Scanner) (start_off len : Nat)
    (rest : List Char) (tt : TokenType) (hlen : rest.length = len) (hpos : 0 < len) :
    Scanner.check_keyword sc start_off len rest tt = none ∨
    Scanner.check_keyword sc start_off len rest tt = some TokenType.Idenitifier := by
  unfold Scanner.check_keyword
  split
  · split
    · split
      · rename_i hle heq hbounds
        split
        · rename_i hslice
          have hl := congrArg List.length hslice
          rw [List.length_take, List.length_drop] at hl
          rw [hlen] at hl
          rw [Nat.min_def] at hl
          split at hl <;> omega
        · right; rfl
      · left; rfl
    · right; rfl
  · left; rfl

/-- C3: the lexeme "and" never scans as the keyword `And`: inside the
source "and xy" `identifier_type` answers `Idenitifier`, and when "and"
ends the source the slice in `check_keyword` runs past the end of the
source, a panic. -/
theorem keyword_and_scans_as_identifier :
    Scanner.identifier_type andScanner = some TokenType.Idenitifier ∧
    Scanner.identifier_type andScannerAtEnd = none := by
  decide

/-- C4 counterexample: in a state that already has 64 live call frames
(`FRAMES_MAX` per the claim), `Call` on a zero-arity closure does not fail
with a runtime error: it succeeds and pushes a 65th frame. -/
theorem call_at_frames_max_succeeds :
    (VM.call framesFullState 0 0).map (fun r => (r.1, r.2.frames.length)) =
      some (true, 65) := by
  decide

/-- C4 (amended): `Call` on a `Closure` succeeds exactly when the
argument count equals the callee's arity: on a match (with the callee on
the stack) it succeeds and pushes a frame regardless of how many frames
are already live — the VM imposes no `FRAMES_MAX` limit and hence no
`FRAMES_MAX * 256` stack bound — and on a mismatch it fails with a
runtime error, again independently of the frame count. -/
theorem call_checks_only_arity (s : VMState) (cid n : Nat) (cl : Closure) (fn : Function)
    (h1 : s.closures[cid]? = some cl) (h2 : s.functions[cl.functionId]? = some fn) :
    (n = fn.arity → n + 1 ≤ s.stack.length →
      VM.call s cid n =
        some (true, { s with
          frames := s.frames ++ [⟨s.stack.length - n - 1, 0, cl.functionId, cid⟩] })) ∧
    (n ≠ fn.arity → VM.call s cid n = some (false, VM.runtime_error s)) := by
  refine ⟨?_, ?_⟩
  · intro h3 h4
    subst h3
    simp [VM.call, h1, h2, h4]
  · intro h3
    simp [VM.call, h1, h2, h3]

/-- Witness for `call_checks_only_arity` at the 64-frame state: the
zero-argument call on the zero-arity closure succeeds, and the
one-argument call on the same closure fails with a runtime error. -/
theorem call_checks_only_arity_witness :
    VM.call framesFullState 0 0 =
      some (true, { framesFullState with
        frames := framesFullState.frames ++ [⟨0, 0, 0, 0⟩] }) ∧
    VM.call framesFullState 0 1 = some (false, VM.runtime_error framesFullState) := by
  constructor
  · have h := (call_checks_only_arity framesFullState 0 0 ⟨0, []⟩ ⟨0, "", 0⟩
      (by decide) (by decide)).1 (by decide) (by decide)
    exact h.trans (by decide)
  · exact (call_checks_only_arity framesFullState 0 1 ⟨0, []⟩ ⟨0, "", 0⟩
      (by decide) (by decide)).2 (by decide)

/-- C5 counterexample: executing `Add` with the `String` "a" beneath the
`Number` 1 does not raise a runtime error: it pushes the concatenation
"a1". -/
theorem add_string_number_concatenates :
    VM.add_step addBugState =
      some (.ok ⟨[], [Value.string "a1"], [], [], [], [], [], []⟩) := by
  decide

/-- C5 (amended): `Add` pushes the numeric sum when both operands are
`Number`s; when the deeper operand is a `String` it pushes the
concatenation of that string with the `Display` rendering of the top
operand, whatever the top operand's variant; only when the deeper operand
is not a `String` and the operands are not both `Number`s does it raise a
runtime error. -/
theorem add_step_characterization (s : VMState) (h : 2 ≤ s.stack.length) :
    (∀ na nb, VM.peek s 1 = Value.number na → VM.peek s 0 = Value.number nb →
      VM.add_step s =
        some (.ok (VM.push (VM.popStack (VM.popStack s)) (Value.number (na + nb))))) ∧
    (∀ sa, VM.peek s 1 = Value.string sa →
      VM.add_step s =
        some (.ok (VM.push (VM.popStack (VM.popStack s))
          (Value.string (sa ++ VM.display s (s.upvalueCells.length + 1) (VM.peek s 0)))))) ∧
    ((∀ sa, VM.peek s 1 ≠ Value.string sa) →
      (∀ na nb, ¬(VM.peek s 1 = Value.number na ∧ VM.peek s 0 = Value.number nb)) →
      VM.add_step s = some (.err (VM.runtime_error s))) := by
  have hnot : ¬ s.stack.length < 2 := by omega
  refine ⟨?_, ?_, ?_⟩
  · intro na nb h1 h0
    unfold VM.add_step
    rw [if_neg hnot, h1, h0]
  · intro sa h1
    unfold VM.add_step
    rw [if_neg hnot, h1]
  · intro hns hnn
    unfold VM.add_step
    rw [if_neg hnot]
    rcases hp1 : VM.peek s 1 <;> rcases hp0 : VM.peek s 0 <;>
      first
        | rfl
        | exact absurd hp1 (hns _)
        | exact absurd ⟨hp1, hp0⟩ (hnn _ _)

/-- Witness for `add_step_characterization`: `2 + 3` evaluates to `5`. -/
theorem add_step_characterization_witness :
    VM.add_step ⟨[], [Value.number 2, Value.number 3], [], [], [], [], [], []⟩ =
      some (.ok ⟨[], [Value.number 5], [], [], [], [], [], []⟩) := by
  have h := (add_step_characterization
    ⟨[], [Value.number 2, Value.number 3], [], [], [], [], [], []⟩
    (by decide)).1 2 3 (by decide) (by decide)
  exact h.trans (by decide)

/-- Helper: the equation `emit_loop` satisfies whenever `loop_start` is in
range. -/
theorem emit_loop_eq (lb : Nat) (code : List Nat) (ls : Nat) (h : ls ≤ code.length + 1) :
    Parser.emit_loop lb code ls =
      some (decide ((code.length + 1 - ls + 2) % 65536 > 65535),
        (code ++ [lb]) ++ [((code.length + 1 - ls + 2) >>> 8) % 256,
          (code.length + 1 - ls + 2) % 256]) := by
  simp only [Parser.emit_loop, List.length_append, List.length_cons, List.length_nil,
    Nat.zero_add]
  rw [if_pos (by omega)]

/-- C7: the overflow guards compare a value already truncated to `u16`
with `u16::MAX`, so they never fire: a forward jump patched over a
distance of 65536 bytes and a `Loop` with offset 70003 both report no
error (the operand bytes are silently truncated), and in general the
error flag of `patch_jump` and `emit_loop` is false on every input. -/
theorem jump_overflow_checks_never_fire :
    (∃ bytes, Parser.patch_jump (List.replicate 65540 0) 2 = some (false, bytes)) ∧
    (∃ bytes, Parser.emit_loop 20 (List.replicate 70000 0) 0 = some (false, bytes)) ∧
    (∀ code offset r, Parser.patch_jump code offset = some r → r.1 = false) ∧
    (∀ lb code ls r, Parser.emit_loop lb code ls = some r → r.1 = false) := by
  refine ⟨?_, ?_, ?_, ?_⟩
  · simp only [Parser.patch_jump, List.length_replicate]
    norm_num
  · rw [emit_loop_eq 20 (List.replicate 70000 0) 0 (Nat.zero_le _)]
    simp only [List.length_replicate]
    norm_num
  · intro code offset r h
    unfold Parser.patch_jump at h
    split at h
    · rw [Option.some_inj] at h
      have hm : (code.length - offset - 2) % 65536 < 65536 :=
        Nat.mod_lt _ (by norm_num)
      rw [← h]
      simp only [decide_eq_false_iff_not]
      omega
    · exact absurd h (by simp)
  · intro lb code ls r h
    simp only [Parser.emit_loop] at h
    split at h
    · rw [Option.some_inj] at h
      have hm : ((code ++ [lb]).length - ls + 2) % 65536 < 65536 :=
        Nat.mod_lt _ (by norm_num)
      rw [← h]
      simp only [decide_eq_false_iff_not]
      omega
    · exact absurd h (by simp)

/-- Witness for `jump_overflow_checks_never_fire`: `patch_jump` on a
four-byte chunk writes the distance 2 and reports no error. -/
theorem jump_overflow_checks_never_fire_witness :
    Parser.patch_jump [0, 0, 0, 0] 0 = some (false, [0, 2, 0, 0]) ∧
    ((false, [0, 2, 0, 0]) : Bool × List Nat).1 = false :=
  ⟨by decide,
    jump_overflow_checks_never_fire.2.2.1 [0, 0, 0, 0] 0 (false, [0, 2, 0, 0]) (by decide)⟩

/-- C8: `sqrt` applied to an empty argument slice indexes `values[0]` out
of bounds — a panic, not an `Err` — and the panic propagates through the
`Native` arm of `call_value`, so `sqrt();` aborts the interpreter instead
of producing a runtime error. -/
theorem sqrt_zero_args_out_of_bounds :
    sqrt sqrtCallState [] = none ∧
    VM.call_value_native sqrtCallState 0 (sqrt sqrtCallState) = none :=
  ⟨rfl, rfl⟩

/-- C9: every runtime-error outcome of the embedded operations — the
generic `runtime_error` reporter, a failing `Add`, a `call` arity
mismatch, or a failing native call — leaves the VM with an empty value
stack, no call frames and no open upvalues. -/
theorem runtime_error_clears_state (s s' : VMState)
    (h : s' = VM.runtime_error s ∨
      VM.add_step s = some (.err s') ∨
      (∃ cid n, VM.call s cid n = some (false, s')) ∨
      (∃ n f, VM.call_value_native s n f = some (false, s'))) :
    cleared s' := by
  have hre : ∀ t : VMState, cleared (VM.runtime_error t) := fun t => ⟨rfl, rfl, rfl⟩
  rcases h with h | h | ⟨cid, n, h⟩ | ⟨n, f, h⟩
  · exact h ▸ hre s
  · unfold VM.add_step at h
    split at h
    · simp at h
    · split at h
      · simp at h
      · simp at h
      · simp only [Option.some_inj] at h
        cases h
        exact hre s
  · rcases hc : s.closures[cid]? with _ | cl
    · simp [VM.call, hc] at h
    · rcases hf : s.functions[cl.functionId]? with _ | fn
      · simp [VM.call, hc, hf] at h
      · simp only [VM.call, hc, hf, Option.bind_eq_bind, Option.some_bind] at h
        split at h
        · simp only [pure, Option.some_inj, Prod.mk.injEq] at h
          exact h.2 ▸ hre s
        · split at h <;> simp [pure] at h
  · by_cases h1 : n ≤ s.stack.length
    · rcases hf : f (s.stack.drop (s.stack.length - n)) with _ | res
      · simp [VM.call_value_native, h1, hf] at h
      · by_cases h2 : n + 1 ≤ s.stack.length
        · rcases res with msg | v
          · simp only [VM.call_value_native, h1, if_true, hf, Option.bind_eq_bind,
              Option.some_bind, h2, pure, Option.some_inj, Prod.mk.injEq, if_pos] at h
            exact h.2 ▸ hre _
          · simp [VM.call_value_native, h1, hf, h2, pure] at h
        · simp [VM.call_value_native, h1, hf, h2] at h
    · simp [VM.call_value_native, h1] at h

/-- Witness for `runtime_error_clears_state`: `Add` on two `Bool`s reports
a runtime error and the resulting state is fully cleared. -/
theorem runtime_error_clears_state_witness :
    cleared (VM.runtime_error boolPairState) :=
  runtime_error_clears_state boolPairState (VM.runtime_error boolPairState)
    (Or.inr (Or.inl (by decide)))

/-- C10: when compilation fails, `interpret` returns `CompileError` with
the VM state — stack, frames, open upvalues and globals — exactly as it
was before the call, for every state and every interpreter loop. -/
theorem interpret_compile_error_preserves_state (s : VMState)
    (run : VMState → InterpretResult × VMState) :
    interpret none s run = some (.compileError, s) := rfl

end RsLox
